import Mathlib

/-!
Shallow embedding of `packages/node-opcua-utils/source/watchdog.ts`.

The watchdog keeps an integer-keyed table `_watchdogDataMap` of
`IWatchdogData2` records, a monotonically increasing `_counter` used to
mint keys, a cached `_currentTime` tick and an interval timer `_timer`
(modelled as a `Bool`: `true` iff the timer is non-null).  Subscribers
are JavaScript objects mutated in place (`_watchDog`, `_watchDogData`,
`keepAlive`); we model them as records held in a store keyed by an
identifier, where `watchDogData` keeps the key of the data record (the
data itself lives in the owning watchdog's table).  Clock reads are
injected as an explicit `tick` argument.  Assertion failures and thrown
errors become `Except.error`; on every path relevant to the claims the
throw happens before any state mutation, so the all-or-nothing `Except`
presentation is observationally faithful.  Externally observable calls
(`onClientSeen`, the `"timeout"` event emission, `watchdogReset`) are
recorded in an event trace; the `"timeout"` event additionally records
the list of keys present in the table at the instant of emission, which
is exactly what a synchronous observer of the event can see.
-/

deriving instance DecidableEq for Except

namespace Watchdog

/-- A JavaScript number argument: either `NaN` or an actual (integer)
number of milliseconds. -/
inductive JSNumber : Type
  | nan : JSNumber
  | num (x : Int) : JSNumber
deriving DecidableEq, Repr

/-- The JavaScript expression `timeout || 1000` evaluated on a number:
falsy numbers (`0` and `NaN`) are replaced by `1000`, every other
number (including negative ones) is kept as is. -/
def resolveTimeout : JSNumber → Int
  | JSNumber.nan => 1000
  | JSNumber.num x => if x = 0 then 1000 else x

/-- `IWatchdogData2`: the per-subscriber record stored in
`_watchdogDataMap`.  `subscriberId` models the `subscriber` object
reference. -/
structure WatchdogData : Type where
  key : Nat
  subscriberId : Nat
  timeout : Int
  lastSeen : Int
  visitCount : Nat
deriving DecidableEq, Repr

/-- An `ISubscriber` object: which dynamic fields are currently set on
it.  `watchDog` models `_watchDog` being set (the code only ever checks
truthiness and `instanceof WatchDog`, never identity with `this`, so a
`Bool` is faithful); `watchDogData` keeps the `key` of the data record
the `_watchDogData` field points to; `keepAlive` records whether the
bound keep-alive callback is attached; `hasWatchdogReset` and
`hasOnClientSeen` record which optional methods the object provides. -/
structure Subscriber : Type where
  watchDog : Bool
  watchDogData : Option Nat
  keepAlive : Bool
  hasWatchdogReset : Bool
  hasOnClientSeen : Bool
deriving DecidableEq, Repr

/-- The private state of one `WatchDog` instance. -/
structure WDState : Type where
  watchdogDataMap : List (Nat × WatchdogData)
  counter : Nat
  currentTime : Int
  timer : Bool
deriving DecidableEq, Repr

/-- Externally observable calls, in order of occurrence.  The
`timeoutEmit` event carries the emitted batch and the list of keys
present in `_watchdogDataMap` at the instant `emit("timeout", ...)`
runs, i.e. what a synchronous listener observes. -/
inductive Event : Type
  | onClientSeen (sid : Nat) : Event
  | timeoutEmit (batch : List WatchdogData) (tableKeysAtEmit : List Nat) : Event
  | watchdogReset (sid : Nat) : Event
deriving DecidableEq, Repr

/-- One watchdog instance, the subscriber object store and the trace of
observable calls made so far. -/
structure World : Type where
  wd : WDState
  subs : List (Nat × Subscriber)
  events : List Event
deriving DecidableEq, Repr

/-- Association-list lookup, first match wins (object property read). -/
def alook {α : Type} (k : Nat) : List (Nat × α) → Option α
  | [] => none
  | (k', v) :: rest => if k' = k then some v else alook k rest

/-- Association-list write `m[k] = v`: replace in place if the key is
present, append otherwise (JavaScript integer keys iterate in ascending
insertion order, which appending fresh increasing keys preserves). -/
def aset {α : Type} (k : Nat) (v : α) : List (Nat × α) → List (Nat × α)
  | [] => [(k, v)]
  | (k', v') :: rest => if k' = k then (k, v) :: rest else (k', v') :: aset k v rest

/-- Update the value at key `k` in place (mutation of the stored
object); no effect when the key is absent. -/
def aupd {α : Type} (k : Nat) (f : α → α) : List (Nat × α) → List (Nat × α)
  | [] => []
  | (k', v) :: rest => if k' = k then (k', f v) :: aupd k f rest else (k', v) :: aupd k f rest

/-- `delete m[k]`. -/
def aerase {α : Type} (k : Nat) (m : List (Nat × α)) : List (Nat × α) :=
  m.filter (fun p => !(p.1 = k : Bool))

/-- `hasExpired` from the source: the elapsed time since `lastSeen`
strictly exceeds the stored timeout. -/
def hasExpired (watchDogData : WatchdogData) (currentTime : Int) : Bool :=
  currentTime - watchDogData.lastSeen > watchDogData.timeout

/-- `Object.keys(this._watchdogDataMap).length`. -/
def subscriberCount (w : World) : Nat :=
  w.wd.watchdogDataMap.length

/-- `true` iff the computation threw. -/
def isErr {α : Type} : Except String α → Bool
  | Except.error _ => true
  | Except.ok _ => false

/-- A freshly constructed `WatchDog` (constructor): empty table, zero
counter, no timer. -/
def initWDState (t0 : Int) : WDState :=
  { watchdogDataMap := [], counter := 0, currentTime := t0, timer := false }

/-- A world with a fresh watchdog and a given store of subscriber
objects. -/
def initWorld (subs : List (Nat × Subscriber)) (t0 : Int) : World :=
  { wd := initWDState t0, subs := subs, events := [] }

/-- `keepAliveFunc` bound to subscriber `sid` (the `recordActivity`
callback): asserts `_watchDog instanceof WatchDog`, throws
`"Internal error"` when `_watchDogData` is missing, then writes the
current tick into the shared data record and calls `onClientSeen` when
present. -/
def keepAliveFunc (w : World) (sid : Nat) (tick : Int) : Except String World :=
  match alook sid w.subs with
  | none => Except.error "no such subscriber object"
  | some s =>
    if !s.watchDog then
      Except.error "assertion failed: this._watchDog instanceof WatchDog"
    else
      match s.watchDogData with
      | none => Except.error "Internal error"
      | some key =>
        let wd1 : WDState := { w.wd with
          watchdogDataMap :=
            aupd key (fun d => { d with lastSeen := tick }) w.wd.watchdogDataMap }
        let ev := if s.hasOnClientSeen then [Event.onClientSeen sid] else []
        Except.ok { wd := wd1, subs := w.subs, events := w.events ++ ev }

/-- The mutation `addSubscriber` performs on the subscriber object:
set `_watchDog`, `_watchDogData` (pointing at `key`) and bind
`keepAlive`. -/
def regSub (key : Nat) (s0 : Subscriber) : Subscriber :=
  { s0 with watchDog := true, watchDogData := some key, keepAlive := true }

/-- The data record `addSubscriber` creates. -/
def mkData (key sid : Nat) (timeout : JSNumber) (tick : Int) : WatchdogData :=
  { key := key, subscriberId := sid, timeout := resolveTimeout timeout,
    lastSeen := tick, visitCount := 0 }

/-- The mutation `removeSubscriber` performs on the subscriber object:
`delete _watchDog; delete _watchDogData; delete keepAlive`. -/
def clearSub (s0 : Subscriber) : Subscriber :=
  { s0 with watchDog := false, watchDogData := none, keepAlive := false }

/-- `WatchDog.addSubscriber`: refresh `_currentTime`, apply
`timeout || 1000`, assert the subscriber provides `watchdogReset` and
does not already carry a `keepAlive` function, mint a fresh key, store
the data record both on the subscriber and in the table, call
`onClientSeen` when present, bind `keepAlive`, and start the interval
timer when the table just became a singleton. -/
def addSubscriber (w : World) (sid : Nat) (timeout : JSNumber) (tick : Int) :
    Except String (World × Nat) :=
  match alook sid w.subs with
  | none => Except.error "no such subscriber object"
  | some s =>
    if !s.hasWatchdogReset then
      Except.error "assertion failed: the subscriber must provide a watchdogReset method"
    else if s.keepAlive then
      Except.error "assertion failed: !isFunction(subscriber.keepAlive)"
    else
      let key := w.wd.counter + 1
      let d : WatchdogData := mkData key sid timeout tick
      let subs1 := aupd sid (regSub key) w.subs
      let wd1 : WDState := { w.wd with
        counter := key
        currentTime := tick
        watchdogDataMap := aset key d w.wd.watchdogDataMap }
      let ev := if s.hasOnClientSeen then [Event.onClientSeen sid] else []
      if wd1.watchdogDataMap.length = 1 then
        if wd1.timer then
          Except.error "assertion failed: setInterval already called ?"
        else
          Except.ok ({ wd := { wd1 with timer := true }, subs := subs1,
                       events := w.events ++ ev }, key)
      else
        if wd1.timer then
          Except.ok ({ wd := wd1, subs := subs1, events := w.events ++ ev }, key)
        else
          Except.error "assertion failed: this._timer !== null"

/-- `WatchDog.removeSubscriber`: early return when `_watchDog` is not
set, `"Internal error"` when `_watchDogData` is missing, assertions on
`keepAlive` and on the key being present in this instance's table, then
deletion of the table entry, clearing of the subscriber's dynamic
fields and a lazy stop of the timer when the table became empty. -/
def removeSubscriber (w : World) (sid : Nat) : Except String World :=
  match alook sid w.subs with
  | none => Except.error "no such subscriber object"
  | some s =>
    if !s.watchDog then
      Except.ok w
    else
      match s.watchDogData with
      | none => Except.error "Internal error"
      | some key =>
        if !s.keepAlive then
          Except.error "assertion failed: isFunction(subscriber.keepAlive)"
        else if (alook key w.wd.watchdogDataMap).isNone then
          Except.error "assertion failed: hasOwnProperty(key)"
        else
          let wd1 : WDState := { w.wd with watchdogDataMap := aerase key w.wd.watchdogDataMap }
          let subs1 := aupd sid clearSub w.subs
          if wd1.watchdogDataMap.length = 0 then
            if wd1.timer then
              Except.ok { wd := { wd1 with timer := false }, subs := subs1, events := w.events }
            else
              Except.error "assertion failed: _stop_timer already called ?"
          else
            Except.ok { wd := wd1, subs := subs1, events := w.events }

/-- The visit phase of a sweep: `watchDogData.visitCount += 1` performed
on every value while `_.filter` evaluates its predicate. -/
def incVisit (d : WatchdogData) : WatchdogData :=
  { d with visitCount := d.visitCount + 1 }

/-- The table after the sweep's filter ran over it: every stored record
has its `visitCount` incremented. -/
def visitAll (m : List (Nat × WatchdogData)) : List (Nat × WatchdogData) :=
  m.map (fun p => (p.1, incVisit p.2))

/-- The batch `_.filter` returns: the (already incremented) records
whose silence strictly exceeds their timeout at `tick`. -/
def expiredEntries (m : List (Nat × WatchdogData)) (tick : Int) : List WatchdogData :=
  ((visitAll m).map Prod.snd).filter (fun d => hasExpired d tick)

/-- The eviction loop at the end of `_visit_subscriber`: for each
expired record, `removeSubscriber` then `watchdogReset`. -/
def evictLoop : List WatchdogData → World → Except String World
  | [], w => Except.ok w
  | d :: rest, w =>
    match removeSubscriber w d.subscriberId with
    | Except.error e => Except.error e
    | Except.ok w1 =>
      evictLoop rest
        { w1 with events := w1.events ++ [Event.watchdogReset d.subscriberId] }

/-- `WatchDog._visit_subscriber`, the periodic sweep: refresh
`_currentTime`, increment every `visitCount` while filtering out the
expired records, emit a single `"timeout"` event carrying the whole
batch when it is non-empty (the table still holds every batch entry at
that instant), then evict each batch entry and call its
`watchdogReset`. -/
def visitSubscriber (w : World) (tick : Int) : Except String World :=
  let m1 := visitAll w.wd.watchdogDataMap
  let expired := expiredEntries w.wd.watchdogDataMap tick
  let wd1 : WDState := { w.wd with currentTime := tick, watchdogDataMap := m1 }
  let w1 : World := { wd := wd1, subs := w.subs, events := w.events }
  let w2 : World :=
    if expired.isEmpty then w1
    else { w1 with events := w1.events ++ [Event.timeoutEmit expired (m1.map Prod.fst)] }
  evictLoop expired w2

/-- Repeated `delete` of a list of keys. -/
def eraseKeys (ks : List Nat) (m : List (Nat × WatchdogData)) : List (Nat × WatchdogData) :=
  ks.foldl (fun acc k => aerase k acc) m

/-- Does the trace claim every emitted batch entry was already out of
the table when the `"timeout"` event was delivered?  (The property the
spec scenario asserts about a sweep.) -/
def batchRemovedAtEmit (evs : List Event) : Bool :=
  evs.all (fun e =>
    match e with
    | Event.timeoutEmit batch snap => batch.all (fun d => !(snap.contains d.key))
    | _ => true)

/-- The events of a sweep result (`[]` when the sweep threw). -/
def eventsOf : Except String World → List Event
  | Except.ok w => w.events
  | Except.error _ => []

/-- The consistency a subscriber object registered under key `k` must
show: `_watchDog` set, `_watchDogData` pointing at `k`, `keepAlive`
bound. -/
def SubOK (subs : List (Nat × Subscriber)) (k sid : Nat) : Prop :=
  (alook sid subs).map Subscriber.watchDog = some true ∧
  (alook sid subs).bind Subscriber.watchDogData = some k ∧
  (alook sid subs).map Subscriber.keepAlive = some true

/-- Table-side consistency: distinct keys, each record keyed by its own
`key` field, keys bounded by the counter, and each record's subscriber
object pointing back at it. -/
def MapConsistent (m : List (Nat × WatchdogData)) (subs : List (Nat × Subscriber))
    (counter : Nat) : Prop :=
  (m.map Prod.fst).Nodup ∧
  ∀ p ∈ m, p.2.key = p.1 ∧ p.1 ≤ counter ∧ SubOK subs p.1 p.2.subscriberId

/-- The well-formedness every reachable world enjoys: a consistent
table and the lazy-timer invariant (`_timer` non-null iff the table is
non-empty). -/
def WF (w : World) : Prop :=
  MapConsistent w.wd.watchdogDataMap w.subs w.wd.counter ∧
  w.wd.timer = !w.wd.watchdogDataMap.isEmpty

instance (subs : List (Nat × Subscriber)) (k sid : Nat) : Decidable (SubOK subs k sid) := by
  unfold SubOK; exact inferInstance

instance (m : List (Nat × WatchdogData)) (subs : List (Nat × Subscriber)) (c : Nat) :
    Decidable (MapConsistent m subs c) := by
  unfold MapConsistent; exact inferInstance

instance (w : World) : Decidable (WF w) := by
  unfold WF; exact inferInstance

/-! ### Association-list lemmas -/

theorem alook_aset_self {α : Type} (k : Nat) (v : α) :
    ∀ m : List (Nat × α), alook k (aset k v m) = some v := by
  intro m
  induction m with
  | nil => simp [aset, alook]
  | cons p rest ih =>
    obtain ⟨k', v'⟩ := p
    by_cases h : k' = k
    · simp [aset, alook, h]
    · simp [aset, alook, h, ih]

theorem alook_aset_ne {α : Type} {k k' : Nat} (h : k ≠ k') (v : α) :
    ∀ m : List (Nat × α), alook k (aset k' v m) = alook k m := by
  intro m
  induction m with
  | nil => simp [aset, alook, Ne.symm h]
  | cons p rest ih =>
    obtain ⟨k0, v0⟩ := p
    by_cases h0 : k0 = k'
    · subst h0
      simp [aset, alook, Ne.symm h]
    · simp [aset, alook, h0, ih]

theorem alook_aupd_self {α : Type} (k : Nat) (f : α → α) :
    ∀ m : List (Nat × α), alook k (aupd k f m) = (alook k m).map f := by
  intro m
  induction m with
  | nil => simp [aupd, alook]
  | cons p rest ih =>
    obtain ⟨k0, v0⟩ := p
    by_cases h0 : k0 = k
    · simp [aupd, alook, h0]
    · simp [aupd, alook, h0, ih]

theorem alook_aupd_ne {α : Type} {k k' : Nat} (h : k ≠ k') (f : α → α) :
    ∀ m : List (Nat × α), alook k (aupd k' f m) = alook k m := by
  intro m
  induction m with
  | nil => simp [aupd, alook]
  | cons p rest ih =>
    obtain ⟨k0, v0⟩ := p
    by_cases h0 : k0 = k'
    · subst h0
      simp [aupd, alook, Ne.symm h, ih]
    · simp [aupd, alook, h0, ih]

theorem alook_aerase_self {α : Type} (k : Nat) :
    ∀ m : List (Nat × α), alook k (aerase k m) = none := by
  intro m
  induction m with
  | nil => simp [aerase, alook]
  | cons p rest ih =>
    obtain ⟨k0, v0⟩ := p
    by_cases h0 : k0 = k
    · simpa [aerase, alook, h0] using ih
    · simpa [aerase, alook, h0] using ih

theorem alook_aerase_ne {α : Type} {k k' : Nat} (h : k ≠ k') :
    ∀ m : List (Nat × α), alook k (aerase k' m) = alook k m := by
  intro m
  induction m with
  | nil => simp [aerase, alook]
  | cons p rest ih =>
    obtain ⟨k0, v0⟩ := p
    by_cases h0 : k0 = k'
    · subst h0
      simp only [aerase, List.filter_cons] at ih ⊢
      simp [alook, Ne.symm h, ih]
    · simp only [aerase, List.filter_cons] at ih ⊢
      simp [alook, h0, ih]

theorem aerase_sublist {α : Type} (k : Nat) (m : List (Nat × α)) :
    (aerase k m).Sublist m :=
  List.filter_sublist m

theorem nodup_keys_aerase {α : Type} (k : Nat) {m : List (Nat × α)}
    (h : (m.map Prod.fst).Nodup) : ((aerase k m).map Prod.fst).Nodup :=
  List.Nodup.sublist (List.Sublist.map Prod.fst (aerase_sublist k m)) h

theorem mem_of_alook {α : Type} {k : Nat} {v : α} :
    ∀ {m : List (Nat × α)}, alook k m = some v → (k, v) ∈ m := by
  intro m
  induction m with
  | nil => simp [alook]
  | cons p rest ih =>
    obtain ⟨k0, v0⟩ := p
    by_cases h0 : k0 = k
    · subst h0
      intro h
      simp [alook] at h
      simp [h]
    · intro h
      simp [alook, h0] at h
      exact List.mem_cons_of_mem _ (ih h)

theorem alook_of_mem_nodup {α : Type} {k : Nat} {v : α} :
    ∀ {m : List (Nat × α)}, (m.map Prod.fst).Nodup → (k, v) ∈ m → alook k m = some v := by
  intro m
  induction m with
  | nil => simp
  | cons p rest ih =>
    obtain ⟨k0, v0⟩ := p
    intro hnd hmem
    simp at hnd
    rcases List.mem_cons.mp hmem with heq | htl
    · rw [Prod.mk.injEq] at heq
      simp [alook, heq.1, heq.2]
    · have hk : k0 ≠ k := by
        intro h0
        subst h0
        exact hnd.1 v htl
      simp [alook, hk, ih hnd.2 htl]

theorem isEmpty_false_of_alook {α : Type} {k : Nat} {v : α} {m : List (Nat × α)}
    (h : alook k m = some v) : m.isEmpty = false := by
  cases m with
  | nil => simp [alook] at h
  | cons p rest => rfl

/-! ### `visitAll` and `eraseKeys` lemmas -/

theorem visitAll_keys (m : List (Nat × WatchdogData)) :
    (visitAll m).map Prod.fst = m.map Prod.fst := by
  simp [visitAll]

theorem alook_visitAll (k : Nat) :
    ∀ m : List (Nat × WatchdogData), alook k (visitAll m) = (alook k m).map incVisit := by
  intro m
  induction m with
  | nil => simp [visitAll, alook]
  | cons p rest ih =>
    obtain ⟨k0, v0⟩ := p
    by_cases h0 : k0 = k
    · simp [visitAll, alook, h0]
    · simpa [visitAll, alook, h0] using ih

theorem aupd_keys {α : Type} (k : Nat) (f : α → α) :
    ∀ m : List (Nat × α), (aupd k f m).map Prod.fst = m.map Prod.fst := by
  intro m
  induction m with
  | nil => simp [aupd]
  | cons p rest ih =>
    obtain ⟨k0, v0⟩ := p
    by_cases h0 : k0 = k
    · simp [aupd, h0, ih]
    · simp [aupd, h0, ih]

theorem alook_eraseKeys (k : Nat) :
    ∀ (ks : List Nat) (m : List (Nat × WatchdogData)),
      alook k (eraseKeys ks m) = if k ∈ ks then none else alook k m := by
  intro ks
  induction ks with
  | nil => simp [eraseKeys]
  | cons k0 rest ih =>
    intro m
    by_cases h0 : k = k0
    · subst h0
      by_cases hmem : k ∈ rest
      · simp [eraseKeys, List.foldl_cons, hmem] at ih ⊢
        exact ih (aerase k m)
      · have := ih (aerase k m)
        simp [eraseKeys, List.foldl_cons, hmem] at this ⊢
        rw [this, alook_aerase_self]
    · have := ih (aerase k0 m)
      simp [eraseKeys, List.foldl_cons] at this ⊢
      rw [this, alook_aerase_ne h0]
      simp [h0]

/-! ### Inversion lemmas for the operations -/

/-- Characterization of a successful `removeSubscriber` call: either the
subscriber had `_watchDog` unset (no-op), or the full removal ran,
deleting exactly the key its `_watchDogData` names. -/
theorem removeSubscriber_ok_inv {w : World} {sid : Nat} {w' : World}
    (h : removeSubscriber w sid = Except.ok w') :
    (∃ s, alook sid w.subs = some s ∧ s.watchDog = false ∧ w' = w) ∨
    (∃ s key, alook sid w.subs = some s ∧ s.watchDog = true ∧
      s.watchDogData = some key ∧ s.keepAlive = true ∧
      (alook key w.wd.watchdogDataMap).isSome = true ∧
      ((aerase key w.wd.watchdogDataMap).length = 0 → w.wd.timer = true) ∧
      w' = { wd := { watchdogDataMap := aerase key w.wd.watchdogDataMap,
                     counter := w.wd.counter,
                     currentTime := w.wd.currentTime,
                     timer := if (aerase key w.wd.watchdogDataMap).length = 0 then false
                              else w.wd.timer },
             subs := aupd sid clearSub w.subs,
             events := w.events }) := by
  rw [removeSubscriber] at h
  rcases hs : alook sid w.subs with _ | s
  · rw [hs] at h
    exact absurd h (by simp)
  · rw [hs] at h
    dsimp only at h
    rcases hwd : s.watchDog with _ | _
    · rw [hwd] at h
      simp only [Bool.not_false, if_true, Except.ok.injEq] at h
      exact Or.inl ⟨s, rfl, hwd, h.symm⟩
    · rw [hwd] at h
      simp only [Bool.not_true, Bool.false_eq_true, if_false] at h
      rcases hdata : s.watchDogData with _ | key
      · rw [hdata] at h
        exact absurd h (by simp)
      · rw [hdata] at h
        dsimp only at h
        rcases hka : s.keepAlive with _ | _
        · rw [hka] at h
          exact absurd h (by simp)
        · rw [hka] at h
          simp only [Bool.not_true, Bool.false_eq_true, if_false] at h
          rcases hlook : alook key w.wd.watchdogDataMap with _ | d
          · rw [hlook] at h
            exact absurd h (by simp)
          · rw [hlook] at h
            simp only [Option.isNone_some, Bool.false_eq_true, if_false] at h
            right
            refine ⟨s, key, rfl, hwd, hdata, hka, by rw [hlook]; rfl, ?_, ?_⟩
            · intro hlen
              by_cases ht : w.wd.timer = true
              · exact ht
              · simp only [hlen, if_pos rfl, ht, if_false, reduceIte] at h
                exact absurd h (by simp)
            · by_cases hlen : (aerase key w.wd.watchdogDataMap).length = 0
              · by_cases ht : w.wd.timer = true
                · simp only [hlen, ht, if_pos rfl, reduceIte, Except.ok.injEq] at h
                  rw [← h]
                  simp [hlen]
                · simp only [hlen, if_pos rfl, ht, reduceIte] at h
                  exact absurd h (by simp)
              · simp only [hlen, reduceIte, Except.ok.injEq] at h
                rw [← h]
                simp [hlen]

/-- The no-op branch: a subscriber whose `_watchDog` field is unset is
treated as already removed, and the world is returned untouched. -/
theorem removeSubscriber_noop {w : World} {sid : Nat} {s : Subscriber}
    (hs : alook sid w.subs = some s) (hwd : s.watchDog = false) :
    removeSubscriber w sid = Except.ok w := by
  rw [removeSubscriber, hs]
  dsimp only
  rw [hwd]
  simp

/-- The success branch of `removeSubscriber`, forward direction. -/
theorem removeSubscriber_ok_of {w : World} {sid : Nat} {s : Subscriber} {key : Nat}
    (hs : alook sid w.subs = some s) (hwd : s.watchDog = true)
    (hdata : s.watchDogData = some key) (hka : s.keepAlive = true)
    (hlook : (alook key w.wd.watchdogDataMap).isSome = true)
    (htimer : (aerase key w.wd.watchdogDataMap).length = 0 → w.wd.timer = true) :
    removeSubscriber w sid = Except.ok
      { wd := { watchdogDataMap := aerase key w.wd.watchdogDataMap,
                counter := w.wd.counter, currentTime := w.wd.currentTime,
                timer := if (aerase key w.wd.watchdogDataMap).length = 0 then false
                         else w.wd.timer },
        subs := aupd sid clearSub w.subs, events := w.events } := by
  rw [removeSubscriber, hs]
  dsimp only
  rw [hwd]
  simp only [Bool.not_true, Bool.false_eq_true, if_false]
  rw [hdata]
  dsimp only
  rw [hka]
  simp only [Bool.not_true, Bool.false_eq_true, if_false]
  rcases hx : alook key w.wd.watchdogDataMap with _ | d
  · rw [hx] at hlook
    simp at hlook
  · simp only [hx, Option.isNone_some, Bool.false_eq_true, if_false]
    by_cases hlen : (aerase key w.wd.watchdogDataMap).length = 0
    · simp only [hlen, if_pos rfl, reduceIte, htimer hlen]
    · simp only [hlen, reduceIte]

/-- With `_watchDog` set but `_watchDogData` missing, `removeSubscriber`
throws `"Internal error"`. -/
theorem removeSubscriber_no_data_err {w : World} {sid : Nat} {s : Subscriber}
    (hs : alook sid w.subs = some s) (hwd : s.watchDog = true)
    (hdata : s.watchDogData = none) :
    removeSubscriber w sid = Except.error "Internal error" := by
  rw [removeSubscriber, hs]
  dsimp only
  rw [hwd]
  simp only [Bool.not_true, Bool.false_eq_true, if_false]
  rw [hdata]

/-- With `_watchDog` set and a `_watchDogData` key that this instance's
table does not contain, `removeSubscriber` throws (one of the two
assertions fails, depending on whether `keepAlive` is bound). -/
theorem removeSubscriber_absent_key_err {w : World} {sid : Nat} {s : Subscriber} {key : Nat}
    (hs : alook sid w.subs = some s) (hwd : s.watchDog = true)
    (hdata : s.watchDogData = some key)
    (hlook : alook key w.wd.watchdogDataMap = none) :
    isErr (removeSubscriber w sid) = true := by
  rw [removeSubscriber, hs]
  dsimp only
  rw [hwd]
  simp only [Bool.not_true, Bool.false_eq_true, if_false]
  rw [hdata]
  dsimp only
  rcases hka : s.keepAlive with _ | _
  · simp [isErr]
  · simp [isErr, hlook]

/-- Characterization of a successful `addSubscriber` call: the
subscriber provided `watchdogReset`, had no `keepAlive` bound, the
fresh key `_counter + 1` was minted and both sides of the table link
were written; the interval timer is running afterwards. -/
theorem addSubscriber_ok_inv {w : World} {sid : Nat} {t : JSNumber} {tick : Int}
    {w' : World} {k : Nat}
    (h : addSubscriber w sid t tick = Except.ok (w', k)) :
    ∃ s, alook sid w.subs = some s ∧ s.hasWatchdogReset = true ∧ s.keepAlive = false ∧
      k = w.wd.counter + 1 ∧
      w'.wd.watchdogDataMap = aset k (mkData k sid t tick) w.wd.watchdogDataMap ∧
      w'.wd.counter = k ∧ w'.wd.currentTime = tick ∧ w'.wd.timer = true ∧
      w'.subs = aupd sid (regSub k) w.subs ∧
      w'.events = w.events ++ (if s.hasOnClientSeen then [Event.onClientSeen sid] else []) := by
  rw [addSubscriber] at h
  rcases hs : alook sid w.subs with _ | s
  · rw [hs] at h
    exact absurd h (by simp)
  · rw [hs] at h
    dsimp only at h
    rcases hres : s.hasWatchdogReset with _ | _
    · rw [hres] at h
      exact absurd h (by simp)
    · rw [hres] at h
      simp only [Bool.not_true, Bool.false_eq_true, if_false] at h
      rcases hka : s.keepAlive with _ | _
      · rw [hka] at h
        simp only [Bool.false_eq_true, if_false] at h
        refine ⟨s, rfl, hres, hka, ?_⟩
        by_cases hlen : (aset (w.wd.counter + 1) (mkData (w.wd.counter + 1) sid t tick)
            w.wd.watchdogDataMap).length = 1
        · simp only [hlen, if_pos rfl, reduceIte] at h
          rcases ht : w.wd.timer with _ | _
          · rw [ht] at h
            simp only [Bool.false_eq_true, if_false, Except.ok.injEq, Prod.mk.injEq] at h
            rw [← h.1, ← h.2]
            simp
          · rw [ht] at h
            exact absurd h (by simp)
        · simp only [hlen, reduceIte] at h
          rcases ht : w.wd.timer with _ | _
          · rw [ht] at h
            exact absurd h (by simp)
          · rw [ht] at h
            simp only [if_true, Except.ok.injEq, Prod.mk.injEq] at h
            rw [← h.1, ← h.2]
            simp [ht]
      · rw [hka] at h
        exact absurd h (by simp)

/-- Characterization of a successful keep-alive call: the subscriber
had `_watchDog` and `_watchDogData` set; only `lastSeen` of the record
named by its key is written, and `onClientSeen` fires when present. -/
theorem keepAliveFunc_ok_inv {w : World} {sid : Nat} {tick : Int} {w' : World}
    (h : keepAliveFunc w sid tick = Except.ok w') :
    ∃ s key, alook sid w.subs = some s ∧ s.watchDog = true ∧ s.watchDogData = some key ∧
      w'.wd.watchdogDataMap =
        aupd key (fun d => { d with lastSeen := tick }) w.wd.watchdogDataMap ∧
      w'.wd.counter = w.wd.counter ∧ w'.wd.currentTime = w.wd.currentTime ∧
      w'.wd.timer = w.wd.timer ∧ w'.subs = w.subs ∧
      w'.events = w.events ++ (if s.hasOnClientSeen then [Event.onClientSeen sid] else []) := by
  rw [keepAliveFunc] at h
  rcases hs : alook sid w.subs with _ | s
  · rw [hs] at h
    exact absurd h (by simp)
  · rw [hs] at h
    dsimp only at h
    rcases hwd : s.watchDog with _ | _
    · rw [hwd] at h
      exact absurd h (by simp)
    · rw [hwd] at h
      simp only [Bool.not_true, Bool.false_eq_true, if_false] at h
      rcases hdata : s.watchDogData with _ | key
      · rw [hdata] at h
        exact absurd h (by simp)
      · rw [hdata] at h
        simp only [Except.ok.injEq] at h
        refine ⟨s, key, rfl, hwd, hdata, ?_⟩
        rw [← h]
        simp

/-- The keep-alive callback throws as soon as `_watchDog` or
`_watchDogData` is missing (e.g. after `removeSubscriber`), touching no
state. -/
theorem keepAliveFunc_err {w : World} {sid : Nat} {s : Subscriber} (tick : Int)
    (hs : alook sid w.subs = some s)
    (h : s.watchDog = false ∨ s.watchDogData = none) :
    isErr (keepAliveFunc w sid tick) = true := by
  rw [keepAliveFunc, hs]
  dsimp only
  rcases hwd : s.watchDog with _ | _
  · simp [isErr]
  · rcases h with h | h
    · rw [h] at hwd
      exact absurd hwd (by simp)
    · simp only [Bool.not_true, Bool.false_eq_true, if_false]
      rw [h]
      simp [isErr]

/-! ### The eviction loop and the sweep -/

/-- What the eviction loop needs of a batch entry: its key is still in
the table and its subscriber object points back at that key. -/
def EntryLive (w : World) (d : WatchdogData) : Prop :=
  (alook d.key w.wd.watchdogDataMap).isSome = true ∧
  SubOK w.subs d.key d.subscriberId

/-- The eviction loop runs to completion on a batch of live entries
with distinct keys and distinct subscribers: it erases exactly the
batch keys, appends exactly one `watchdogReset` per entry, keeps the
lazy-timer invariant and touches neither `_counter` nor
`_currentTime`. -/
theorem evictLoop_spec :
    ∀ (l : List WatchdogData) (w : World),
      (∀ d ∈ l, EntryLive w d) →
      (l.map WatchdogData.key).Nodup →
      (l.map WatchdogData.subscriberId).Nodup →
      w.wd.timer = !w.wd.watchdogDataMap.isEmpty →
      ∃ w', evictLoop l w = Except.ok w' ∧
        w'.wd.watchdogDataMap = eraseKeys (l.map WatchdogData.key) w.wd.watchdogDataMap ∧
        w'.events = w.events ++ l.map (fun d => Event.watchdogReset d.subscriberId) ∧
        w'.wd.counter = w.wd.counter ∧ w'.wd.currentTime = w.wd.currentTime ∧
        w'.subs.map Prod.fst = w.subs.map Prod.fst ∧
        w'.wd.timer = !w'.wd.watchdogDataMap.isEmpty := by
  intro l
  induction l with
  | nil =>
    intro w _ _ _ htimer
    exact ⟨w, rfl, by simp [eraseKeys], by simp, rfl, rfl, rfl, htimer⟩
  | cons d rest ih =>
    intro w hlive hkeys hsids htimer
    obtain ⟨hsomeKey, hsub⟩ := hlive d (List.mem_cons_self d rest)
    unfold SubOK at hsub
    rcases hs : alook d.subscriberId w.subs with _ | s
    · rw [hs] at hsub
      simp at hsub
    · rw [hs] at hsub
      simp only [Option.map_some', Option.some_bind, Option.some.injEq] at hsub
      obtain ⟨hw, hd, hk⟩ := hsub
      have hne : w.wd.watchdogDataMap.isEmpty = false := by
        rcases hx : alook d.key w.wd.watchdogDataMap with _ | v
        · rw [hx] at hsomeKey
          simp at hsomeKey
        · exact isEmpty_false_of_alook hx
      have htrue : w.wd.timer = true := by rw [htimer, hne]; rfl
      have hrm := removeSubscriber_ok_of hs hw hd hk hsomeKey (fun _ => htrue)
      simp only [List.map_cons] at hkeys hsids
      have hkey_notin : d.key ∉ rest.map WatchdogData.key :=
        (List.nodup_cons.mp hkeys).1
      have hsid_notin : d.subscriberId ∉ rest.map WatchdogData.subscriberId :=
        (List.nodup_cons.mp hsids).1
      set m1 := aerase d.key w.wd.watchdogDataMap with hm1
      set w2 : World :=
        { wd := { watchdogDataMap := m1, counter := w.wd.counter,
                  currentTime := w.wd.currentTime,
                  timer := if m1.length = 0 then false else w.wd.timer },
          subs := aupd d.subscriberId clearSub w.subs,
          events := w.events ++ [Event.watchdogReset d.subscriberId] } with hw2
      have htimer2 : w2.wd.timer = !w2.wd.watchdogDataMap.isEmpty := by
        rw [hw2]
        by_cases hlen : m1.length = 0
        · have : m1 = [] := List.length_eq_zero.mp hlen
          simp [this, hlen]
        · have : m1.isEmpty = false := by
            cases hm : m1 with
            | nil => exact absurd (by rw [hm]; rfl) hlen
            | cons a b => rfl
          simp [hlen, this, htrue]
      have hlive2 : ∀ d' ∈ rest, EntryLive w2 d' := by
        intro d' hd'
        obtain ⟨hsome', hsub'⟩ := hlive d' (List.mem_cons_of_mem _ hd')
        have hkne : d'.key ≠ d.key := by
          intro he
          exact hkey_notin (he ▸ List.mem_map_of_mem WatchdogData.key hd')
        have hsne : d'.subscriberId ≠ d.subscriberId := by
          intro he
          exact hsid_notin (he ▸ List.mem_map_of_mem WatchdogData.subscriberId hd')
        constructor
        · rw [hw2]
          show (alook d'.key m1).isSome = true
          rw [hm1, alook_aerase_ne hkne]
          exact hsome'
        · unfold SubOK at hsub' ⊢
          rw [hw2]
          show (alook d'.subscriberId (aupd d.subscriberId clearSub w.subs)).map
              Subscriber.watchDog = some true ∧ _
          rw [alook_aupd_ne hsne]
          exact hsub'
      obtain ⟨w3, hrun, hmap3, hev3, hcnt3, htime3, hsubs3, htimer3⟩ :=
        ih w2 hlive2 (List.nodup_cons.mp hkeys).2 (List.nodup_cons.mp hsids).2 htimer2
      refine ⟨w3, ?_, ?_, ?_, ?_, ?_, ?_, htimer3⟩
      · show evictLoop (d :: rest) w = Except.ok w3
        rw [evictLoop, hrm]
        exact hrun
      · rw [hmap3, hw2]
        simp only [List.map_cons]
        simp only [eraseKeys, List.foldl_cons]
      · rw [hev3, hw2]
        simp [List.map_cons]
      · rw [hcnt3, hw2]
      · rw [htime3, hw2]
      · rw [hsubs3, hw2]
        exact aupd_keys _ _ _

theorem mapConsistent_visitAll {m : List (Nat × WatchdogData)}
    {subs : List (Nat × Subscriber)} {c : Nat} (h : MapConsistent m subs c) :
    MapConsistent (visitAll m) subs c := by
  obtain ⟨hnd, hmem⟩ := h
  constructor
  · rw [visitAll_keys]
    exact hnd
  · intro p hp
    simp only [visitAll, List.mem_map] at hp
    obtain ⟨q, hq, rfl⟩ := hp
    obtain ⟨h1, h2, h3⟩ := hmem q hq
    exact ⟨h1, h2, h3⟩

theorem pair_eq_of_fst_eq {m : List (Nat × WatchdogData)}
    (hnd : (m.map Prod.fst).Nodup) {p q : Nat × WatchdogData}
    (hp : p ∈ m) (hq : q ∈ m) (hfst : p.1 = q.1) : p = q := by
  have h1 : alook p.1 m = some p.2 := alook_of_mem_nodup hnd hp
  have h2 : alook q.1 m = some q.2 := alook_of_mem_nodup hnd hq
  rw [hfst] at h1
  rw [h1] at h2
  have : p.2 = q.2 := by injection h2
  exact Prod.ext hfst this

theorem nodup_sids {m : List (Nat × WatchdogData)} {subs : List (Nat × Subscriber)}
    {c : Nat} (h : MapConsistent m subs c) :
    (m.map (fun p => p.2.subscriberId)).Nodup := by
  obtain ⟨hnd, hmem⟩ := h
  have hpairs : m.Nodup := List.Nodup.of_map Prod.fst hnd
  refine List.Nodup.map_on ?_ hpairs
  intro x hx y hy hsid
  obtain ⟨_, _, hsx⟩ := hmem x hx
  obtain ⟨_, _, hsy⟩ := hmem y hy
  unfold SubOK at hsx hsy
  rw [hsid] at hsx
  have : some x.1 = some y.1 := hsx.2.1.symm.trans hsy.2.1
  exact pair_eq_of_fst_eq hnd hx hy (by injection this)

theorem keys_of_snd_map {m : List (Nat × WatchdogData)} {subs : List (Nat × Subscriber)}
    {c : Nat} (h : MapConsistent m subs c) :
    m.map (fun p => p.2.key) = m.map Prod.fst := by
  apply List.map_congr_left
  intro p hp
  exact (h.2 p hp).1

/-- The expired batch inherits distinct keys from the table. -/
theorem nodup_expired_keys {m : List (Nat × WatchdogData)} {subs : List (Nat × Subscriber)}
    {c : Nat} (tick : Int) (h : MapConsistent m subs c) :
    ((expiredEntries m tick).map WatchdogData.key).Nodup := by
  have hc1 := mapConsistent_visitAll h
  have hsub : (expiredEntries m tick).Sublist ((visitAll m).map Prod.snd) :=
    List.filter_sublist _
  have hsub2 : ((expiredEntries m tick).map WatchdogData.key).Sublist
      (((visitAll m).map Prod.snd).map WatchdogData.key) :=
    List.Sublist.map _ hsub
  have heq : ((visitAll m).map Prod.snd).map WatchdogData.key = (visitAll m).map Prod.fst := by
    rw [List.map_map]
    exact keys_of_snd_map hc1
  rw [heq] at hsub2
  exact List.Nodup.sublist hsub2 hc1.1

/-- The expired batch inherits distinct subscribers from the table. -/
theorem nodup_expired_sids {m : List (Nat × WatchdogData)} {subs : List (Nat × Subscriber)}
    {c : Nat} (tick : Int) (h : MapConsistent m subs c) :
    ((expiredEntries m tick).map WatchdogData.subscriberId).Nodup := by
  have hc1 := mapConsistent_visitAll h
  have hsub : (expiredEntries m tick).Sublist ((visitAll m).map Prod.snd) :=
    List.filter_sublist _
  have hsub2 : ((expiredEntries m tick).map WatchdogData.subscriberId).Sublist
      (((visitAll m).map Prod.snd).map WatchdogData.subscriberId) :=
    List.Sublist.map _ hsub
  rw [List.map_map] at hsub2
  exact List.Nodup.sublist hsub2 (nodup_sids hc1)

/-- Every expired entry is (still) a value of the post-visit table,
under its own key. -/
theorem expired_alook {m : List (Nat × WatchdogData)} {subs : List (Nat × Subscriber)}
    {c : Nat} {tick : Int} (h : MapConsistent m subs c) {d : WatchdogData}
    (hd : d ∈ expiredEntries m tick) :
    alook d.key (visitAll m) = some d ∧ SubOK subs d.key d.subscriberId := by
  have hc1 := mapConsistent_visitAll h
  have hmem : d ∈ (visitAll m).map Prod.snd := (List.mem_filter.mp hd).1
  obtain ⟨p, hp, hpd⟩ := List.mem_map.mp hmem
  obtain ⟨k0, d0⟩ := p
  obtain ⟨h1, _, h3⟩ := hc1.2 (k0, d0) hp
  simp only at hpd h1 h3
  have hkey : d.key = k0 := by rw [← hpd]; exact h1
  constructor
  · rw [hkey, ← hpd]
    exact alook_of_mem_nodup hc1.1 hp
  · rw [hkey, ← hpd]
    exact h3

theorem isEmpty_visitAll (m : List (Nat × WatchdogData)) :
    (visitAll m).isEmpty = m.isEmpty := by
  cases m <;> rfl

/-- Master characterization of one sweep pass from a well-formed world:
it always succeeds; the final table is the visited table minus exactly
the batch keys; the trace gains (in this order) one `"timeout"`
emission carrying the whole batch — taken while every batch key is
still in the table — when the batch is non-empty, then one
`watchdogReset` per batch entry; the lazy-timer invariant holds at the
end. -/
theorem visitSubscriber_spec {w : World} (tick : Int) (hWF : WF w) :
    ∃ w', visitSubscriber w tick = Except.ok w' ∧
      w'.wd.watchdogDataMap =
        eraseKeys ((expiredEntries w.wd.watchdogDataMap tick).map WatchdogData.key)
          (visitAll w.wd.watchdogDataMap) ∧
      w'.events = (w.events ++
        (if (expiredEntries w.wd.watchdogDataMap tick).isEmpty then []
         else [Event.timeoutEmit (expiredEntries w.wd.watchdogDataMap tick)
                ((visitAll w.wd.watchdogDataMap).map Prod.fst)])) ++
        (expiredEntries w.wd.watchdogDataMap tick).map
          (fun d => Event.watchdogReset d.subscriberId) ∧
      w'.wd.counter = w.wd.counter ∧ w'.wd.currentTime = tick ∧
      w'.subs.map Prod.fst = w.subs.map Prod.fst ∧
      w'.wd.timer = !w'.wd.watchdogDataMap.isEmpty := by
  obtain ⟨hc, htimer⟩ := hWF
  set m := w.wd.watchdogDataMap with hm
  set expired := expiredEntries m tick with hexp
  set w2 : World :=
    { wd := { watchdogDataMap := visitAll m, counter := w.wd.counter,
              currentTime := tick, timer := w.wd.timer },
      subs := w.subs,
      events := w.events ++
        (if expired.isEmpty then []
         else [Event.timeoutEmit expired ((visitAll m).map Prod.fst)]) } with hw2
  have hrun : visitSubscriber w tick = evictLoop expired w2 := by
    rw [visitSubscriber]
    by_cases hb : expired.isEmpty
    · rw [hw2]
      simp only [← hexp, ← hm, hb, if_pos rfl, reduceIte, Bool.false_eq_true, if_false,
        List.append_nil]
    · rw [hw2]
      simp only [← hexp, ← hm, hb, reduceIte, Bool.false_eq_true, if_false]
  have hlive : ∀ d ∈ expired, EntryLive w2 d := by
    intro d hd
    obtain ⟨h1, h2⟩ := expired_alook hc hd
    exact ⟨by rw [hw2]; show (alook d.key (visitAll m)).isSome = true; rw [h1]; rfl, h2⟩
  have htimer2 : w2.wd.timer = !w2.wd.watchdogDataMap.isEmpty := by
    rw [hw2]
    show w.wd.timer = !(visitAll m).isEmpty
    rw [isEmpty_visitAll]
    exact htimer
  obtain ⟨w', hloop, hmap, hev, hcnt, htm, hsubs, htmr⟩ :=
    evictLoop_spec expired w2 hlive (nodup_expired_keys tick hc) (nodup_expired_sids tick hc)
      htimer2
  refine ⟨w', hrun.trans hloop, ?_, ?_, ?_, ?_, ?_, htmr⟩
  · rw [hmap, hw2]
  · rw [hev, hw2]
  · rw [hcnt, hw2]
  · rw [htm, hw2]
  · rw [hsubs, hw2]

/-! ### Concrete worlds used by counterexamples and witnesses -/

/-- A subscriber object that has never been registered. -/
def freshSub : Subscriber :=
  { watchDog := false, watchDogData := none, keepAlive := false,
    hasWatchdogReset := true, hasOnClientSeen := false }

/-- A subscriber object as it looks right after registration under key
`k`. -/
def regdSub (k : Nat) : Subscriber :=
  { watchDog := true, watchDogData := some k, keepAlive := true,
    hasWatchdogReset := true, hasOnClientSeen := false }

/-- A table record with timeout 10ms, last seen at tick 0. -/
def exData (k sid : Nat) : WatchdogData :=
  { key := k, subscriberId := sid, timeout := 10, lastSeen := 0, visitCount := 0 }

/-- Two subscribers registered at tick 0 with the same 10ms timeout:
both expire at the same moment. -/
def exW1 : World :=
  { wd := { watchdogDataMap := [(1, exData 1 1), (2, exData 2 2)], counter := 2,
            currentTime := 0, timer := true },
    subs := [(1, regdSub 1), (2, regdSub 2)], events := [] }

/-- A fresh watchdog with one unregistered subscriber object. -/
def exW3 : World := initWorld [(1, freshSub)] 0

/-- Subscriber 1 is registered here under key 1; subscriber 2 carries a
stale registration (from another watchdog instance) whose data record
also happens to use key 1. -/
def exW10 : World :=
  { wd := { watchdogDataMap := [(1, exData 1 1)], counter := 1, currentTime := 0,
            timer := true },
    subs := [(1, regdSub 1), (2, regdSub 1)], events := [] }

/-- The timeout value an `addSubscriber` result stored for the key it
returned. -/
def storedTimeoutOf (r : Except String (World × Nat)) : Option Int :=
  match r with
  | Except.ok (w, k) => (alook k w.wd.watchdogDataMap).map WatchdogData.timeout
  | Except.error _ => none

/-! ### Small helper lemmas for the claims -/

theorem aset_length_pos {α : Type} (k : Nat) (v : α) :
    ∀ m : List (Nat × α), 0 < (aset k v m).length := by
  intro m
  cases m with
  | nil => simp [aset]
  | cons p rest =>
    obtain ⟨k0, v0⟩ := p
    by_cases h0 : k0 = k <;> simp [aset, h0]

theorem timerInv_iff {b : Bool} {l : List (Nat × WatchdogData)} (h : b = !l.isEmpty) :
    (b = true ↔ 0 < l.length) := by
  subst h
  cases l <;> simp

/-! ### The claims -/

/-- C2: an entry is classified expired iff `currentTick − lastSeenTick`
is strictly greater than its timeout; elapsed silence exactly equal to
the timeout is not expired, and any strictly positive excess is. -/
theorem hasExpired_strict_gt :
    (∀ (d : WatchdogData) (t : Int), hasExpired d t = decide (t - d.lastSeen > d.timeout)) ∧
    (∀ d : WatchdogData, hasExpired d (d.lastSeen + d.timeout) = false) ∧
    (∀ (d : WatchdogData) (e : Int), 0 < e →
        hasExpired d (d.lastSeen + d.timeout + e) = true) := by
  refine ⟨fun d t => rfl, fun d => ?_, fun d e he => ?_⟩
  · simp [hasExpired]
  · simp only [hasExpired, decide_eq_true_eq, gt_iff_lt]
    omega

/-- Witness for C2 at a concrete entry: excess 1 over a 5ms timeout is
expired. -/
theorem hasExpired_strict_gt_witness :
    (0 : Int) < 1 ∧
    hasExpired { key := 1, subscriberId := 1, timeout := 5, lastSeen := 0, visitCount := 0 }
      (0 + 5 + 1) = true :=
  ⟨by decide,
   hasExpired_strict_gt.2.2
     { key := 1, subscriberId := 1, timeout := 5, lastSeen := 0, visitCount := 0 } 1
     (by decide)⟩

/-- C3 counterexample: registering with the invalid timeout `-5`
(negative, hence not a valid positive number) stores `-5`, not the
default 1000ms — `timeout || 1000` only replaces falsy values and a
negative number is truthy. -/
theorem addSubscriber_negative_timeout_cex :
    storedTimeoutOf (addSubscriber exW3 1 (JSNumber.num (-5)) 0) = some (-5) ∧
    (-5 : Int) ≠ 1000 := by decide

/-- C3 (amended): a register call stores `timeout || 1000` as the
entry's timeout: zero and NaN (the falsy invalid values) fall back to
the 1000ms default, while any non-zero number — including negative
ones — is stored as supplied. -/
theorem addSubscriber_timeout_fallback {w : World} {sid : Nat} {t : JSNumber} {tick : Int}
    {w' : World} {k : Nat} (h : addSubscriber w sid t tick = Except.ok (w', k)) :
    alook k w'.wd.watchdogDataMap = some (mkData k sid t tick) ∧
    (mkData k sid t tick).timeout = resolveTimeout t ∧
    resolveTimeout JSNumber.nan = 1000 ∧
    resolveTimeout (JSNumber.num 0) = 1000 ∧
    (∀ x : Int, x ≠ 0 → resolveTimeout (JSNumber.num x) = x) := by
  obtain ⟨s, _, _, _, _, hmap, _⟩ := addSubscriber_ok_inv h
  refine ⟨?_, rfl, rfl, rfl, fun x hx => by simp [resolveTimeout, hx]⟩
  rw [hmap]
  exact alook_aset_self k _ _

/-- The world produced by registering exW3's subscriber with NaN at
tick 7. -/
def exW3nan : World :=
  { wd := { watchdogDataMap := [(1, mkData 1 1 JSNumber.nan 7)], counter := 1,
            currentTime := 7, timer := true },
    subs := [(1, regdSub 1)], events := [] }

/-- Witness for C3 (amended): registering with NaN stores the 1000ms
default. -/
theorem addSubscriber_timeout_fallback_witness :
    alook 1 exW3nan.wd.watchdogDataMap = some (mkData 1 1 JSNumber.nan 7) ∧
    (mkData 1 1 JSNumber.nan 7).timeout = resolveTimeout JSNumber.nan := by
  have h := @addSubscriber_timeout_fallback exW3 1 JSNumber.nan 7 exW3nan 1 (by decide)
  exact ⟨h.1, h.2.1⟩

/-- C8: invoking the bound keep-alive callback on a subscriber with no
active entry (`_watchDog` or `_watchDogData` missing, as after
unregistration) throws synchronously; no state is returned. -/
theorem keepAlive_unregistered_fails (w : World) (sid : Nat) (s : Subscriber) (tick : Int)
    (hs : alook sid w.subs = some s)
    (h : s.watchDog = false ∨ s.watchDogData = none) :
    isErr (keepAliveFunc w sid tick) = true :=
  keepAliveFunc_err tick hs h

/-- Witness for C8: the callback throws on a never-registered
subscriber object. -/
theorem keepAlive_unregistered_fails_witness :
    isErr (keepAliveFunc exW3 1 5) = true :=
  keepAlive_unregistered_fails exW3 1 freshSub 5 (by decide) (Or.inl (by decide))

/-- C10 counterexample: subscriber 2's `_watchDog` is set and its
stale `_watchDogData` names key 1, which this registry's table does
contain — but bound to subscriber 1, not 2.  The entry is inconsistent
with the caller, yet `removeSubscriber` raises no error: it silently
deletes subscriber 1's entry. -/
theorem remove_foreign_key_collision_cex :
    (alook 2 exW10.subs).map Subscriber.watchDog = some true ∧
    (alook 2 exW10.subs).bind Subscriber.watchDogData = some 1 ∧
    (alook 1 exW10.wd.watchdogDataMap).map WatchdogData.subscriberId = some 1 ∧
    (1 : Nat) ≠ 2 ∧
    isErr (removeSubscriber exW10 2) = false ∧
    removeSubscriber exW10 2 = Except.ok
      { wd := { watchdogDataMap := [], counter := 1, currentTime := 0, timer := false },
        subs := [(1, regdSub 1), (2, clearSub (regdSub 1))], events := [] } := by
  decide

/-- C10 (amended): with `_watchDog` set, `removeSubscriber` raises when
`_watchDogData` is cleared or names a key absent from this registry's
table; but when the stale key is present in the table (e.g. a key
minted by a different instance that collides), the call proceeds
without error and deletes this registry's entry at that key.  Only a
subscriber with `_watchDog` unset gets the idempotent no-op. -/
theorem remove_stale_subscriber_behavior (w : World) (sid : Nat) (s : Subscriber)
    (hs : alook sid w.subs = some s) (hwd : s.watchDog = true) :
    (s.watchDogData = none → isErr (removeSubscriber w sid) = true) ∧
    (∀ k : Nat, s.watchDogData = some k → alook k w.wd.watchdogDataMap = none →
        isErr (removeSubscriber w sid) = true) ∧
    (∀ k : Nat, s.watchDogData = some k → s.keepAlive = true →
        (alook k w.wd.watchdogDataMap).isSome = true → w.wd.timer = true →
        isErr (removeSubscriber w sid) = false) := by
  refine ⟨?_, ?_, ?_⟩
  · intro hdata
    rw [removeSubscriber_no_data_err hs hwd hdata]
    rfl
  · intro k hdata hlook
    exact removeSubscriber_absent_key_err hs hwd hdata hlook
  · intro k hdata hka hsome htimer
    rw [removeSubscriber_ok_of hs hwd hdata hka hsome (fun _ => htimer)]
    rfl

/-- Witness for C10 (amended): concrete instances of the error legs and
the no-error leg. -/
theorem remove_stale_subscriber_behavior_witness :
    isErr (removeSubscriber exW10 2) = false :=
  (remove_stale_subscriber_behavior exW10 2 (regdSub 1) (by decide) (by decide)).2.2
    1 (by decide) (by decide) (by decide) (by decide)

/-- Subscriber `sid` currently has an entry in this registry's
table. -/
def RegisteredIn (w : World) (sid : Nat) : Prop :=
  ∃ k d, alook k w.wd.watchdogDataMap = some d ∧ d.subscriberId = sid

/-- C5: registering a subscriber that is already registered (no
intervening unregister) throws a synchronous assertion to the caller;
no second entry is created (the error precedes any mutation). -/
theorem addSubscriber_double_registration_fails (w : World) (sid : Nat) (t : JSNumber)
    (tick : Int) (hWF : WF w) (hreg : RegisteredIn w sid) :
    isErr (addSubscriber w sid t tick) = true := by
  obtain ⟨k, d, hk, hsid⟩ := hreg
  have hmem := mem_of_alook hk
  obtain ⟨hkey, _, hsub⟩ := hWF.1.2 (k, d) hmem
  unfold SubOK at hsub
  rw [hsid] at hsub
  rcases hs : alook sid w.subs with _ | s
  · rw [hs] at hsub
    simp at hsub
  · rw [hs] at hsub
    simp only [Option.map_some', Option.some_bind, Option.some.injEq] at hsub
    obtain ⟨hw, hd, hka⟩ := hsub
    rw [addSubscriber, hs]
    dsimp only
    rcases hres : s.hasWatchdogReset with _ | _
    · simp [isErr]
    · simp only [Bool.not_true, Bool.false_eq_true, if_false]
      rw [hka]
      simp [isErr]

/-- Witness for C5: re-registering exW1's subscriber 1 throws. -/
theorem addSubscriber_double_registration_fails_witness :
    isErr (addSubscriber exW1 1 (JSNumber.num 10) 50) = true :=
  addSubscriber_double_registration_fails exW1 1 (JSNumber.num 10) 50 (by decide)
    ⟨1, exData 1 1, by decide, by decide⟩

/-- C6: unregistering a subscriber whose `_watchDog` is unset (never
registered, or already removed) is a silent no-op returning the world
untouched, and a successful unregister can always be repeated: the
second call returns the same world unchanged. -/
theorem removeSubscriber_idempotent :
    (∀ (w : World) (sid : Nat) (s : Subscriber), alook sid w.subs = some s →
        s.watchDog = false → removeSubscriber w sid = Except.ok w) ∧
    (∀ (w : World) (sid : Nat) (w' : World), removeSubscriber w sid = Except.ok w' →
        removeSubscriber w' sid = Except.ok w') := by
  constructor
  · intro w sid s hs hwd
    exact removeSubscriber_noop hs hwd
  · intro w sid w' h
    rcases removeSubscriber_ok_inv h with ⟨s, hs, hwd, rfl⟩ |
      ⟨s, key, hs, hwd, hdata, hka, hsome, htmr, rfl⟩
    · exact h
    · have hs' : alook sid (aupd sid clearSub w.subs) = some (clearSub s) := by
        rw [alook_aupd_self, hs]
        rfl
      exact removeSubscriber_noop hs' rfl

/-- The world after unregistering subscriber 1 from exW1. -/
def exW1r : World :=
  { wd := { watchdogDataMap := [(2, exData 2 2)], counter := 2, currentTime := 0,
            timer := true },
    subs := [(1, clearSub (regdSub 1)), (2, regdSub 2)], events := [] }

/-- Witness for C6: the second unregister of exW1's subscriber 1
succeeds and changes nothing. -/
theorem removeSubscriber_idempotent_witness :
    removeSubscriber exW1r 1 = Except.ok exW1r :=
  removeSubscriber_idempotent.2 exW1 1 exW1r (by decide)

/-- C7: explicit unregistration never calls `watchdogReset` — it leaves
the event trace untouched; nor do registration or keep-alive produce a
`watchdogReset`, so reset notifications arise only from the sweep's
eviction path. -/
theorem removeSubscriber_never_resets :
    (∀ (w : World) (sid : Nat) (w' : World), removeSubscriber w sid = Except.ok w' →
        w'.events = w.events) ∧
    (∀ (w : World) (sid : Nat) (t : JSNumber) (tick : Int) (w' : World) (k : Nat),
        addSubscriber w sid t tick = Except.ok (w', k) →
        ∀ j : Nat, Event.watchdogReset j ∈ w'.events → Event.watchdogReset j ∈ w.events) ∧
    (∀ (w : World) (sid : Nat) (tick : Int) (w' : World),
        keepAliveFunc w sid tick = Except.ok w' →
        ∀ j : Nat, Event.watchdogReset j ∈ w'.events → Event.watchdogReset j ∈ w.events) := by
  refine ⟨?_, ?_, ?_⟩
  · intro w sid w' h
    rcases removeSubscriber_ok_inv h with ⟨s, hs, hwd, rfl⟩ |
      ⟨s, key, _, _, _, _, _, _, rfl⟩
    · rfl
    · rfl
  · intro w sid t tick w' k h j hmem
    obtain ⟨s, hs, hres, hka, hkeq, hmap, hcnt, htime, htmr, hsubs, hev⟩ :=
      addSubscriber_ok_inv h
    rw [hev] at hmem
    rcases List.mem_append.mp hmem with h1 | h1
    · exact h1
    · exfalso
      rcases hb : s.hasOnClientSeen with _ | _ <;> rw [hb] at h1 <;> simp at h1
  · intro w sid tick w' h j hmem
    obtain ⟨s, key, hs, hwd, hdata, hmap, hcnt, htime, htmr, hsubs, hev⟩ :=
      keepAliveFunc_ok_inv h
    rw [hev] at hmem
    rcases List.mem_append.mp hmem with h1 | h1
    · exact h1
    · exfalso
      rcases hb : s.hasOnClientSeen with _ | _ <;> rw [hb] at h1 <;> simp at h1

/-- Witness for C7: unregistering subscriber 1 from exW1 leaves the
trace untouched. -/
theorem removeSubscriber_never_resets_witness :
    exW1r.events = exW1.events :=
  removeSubscriber_never_resets.1 exW1 1 exW1r (by decide)

/-- C1 counterexample: at tick 100 both of exW1's entries are expired
(a batch of two).  The sweep emits a single "timeout" notification
carrying both — but the emission happens while both keys are still in
the table (the emitted snapshot `[1, 2]` contains both batch keys), so
the entries have NOT been removed at the moment the notification is
delivered; the `watchdogReset` eviction calls follow the emission. -/
theorem sweep_emits_before_removal_cex :
    (expiredEntries exW1.wd.watchdogDataMap 100).length = 2 ∧
    eventsOf (visitSubscriber exW1 100) =
      [Event.timeoutEmit
        [{ key := 1, subscriberId := 1, timeout := 10, lastSeen := 0, visitCount := 1 },
         { key := 2, subscriberId := 2, timeout := 10, lastSeen := 0, visitCount := 1 }]
        [1, 2],
       Event.watchdogReset 1, Event.watchdogReset 2] ∧
    batchRemovedAtEmit (eventsOf (visitSubscriber exW1 100)) = false := by decide

/-- C1 (amended): every sweep pass from a well-formed world collects
all expired entries into one single "timeout" notification, emitted at
most once per pass — but the notification is delivered BEFORE the
batch is removed: at the moment of delivery every batch entry's key is
still in the table snapshot the observer sees, and each batch entry is
removed from the table only afterwards, by the end of the pass. -/
theorem sweep_single_batch_then_evict {w : World} {tick : Int} {w' : World}
    (hWF : WF w) (hrun : visitSubscriber w tick = Except.ok w') :
    w'.events = (w.events ++
      (if (expiredEntries w.wd.watchdogDataMap tick).isEmpty then []
       else [Event.timeoutEmit (expiredEntries w.wd.watchdogDataMap tick)
              ((visitAll w.wd.watchdogDataMap).map Prod.fst)])) ++
      (expiredEntries w.wd.watchdogDataMap tick).map
        (fun d => Event.watchdogReset d.subscriberId) ∧
    (∀ d ∈ expiredEntries w.wd.watchdogDataMap tick,
        d.key ∈ (visitAll w.wd.watchdogDataMap).map Prod.fst ∧
        alook d.key w'.wd.watchdogDataMap = none) := by
  obtain ⟨w2, hrun2, hmap, hev, _, _, _, _⟩ := visitSubscriber_spec tick hWF
  rw [hrun] at hrun2
  injection hrun2 with heq
  subst heq
  refine ⟨hev, ?_⟩
  intro d hd
  obtain ⟨h1, _⟩ := expired_alook hWF.1 hd
  constructor
  · exact List.mem_map_of_mem Prod.fst (mem_of_alook h1)
  · rw [hmap, alook_eraseKeys]
    rw [if_pos (List.mem_map_of_mem WatchdogData.key hd)]

/-- The world after the sweep of exW1 at tick 100. -/
def exW1s : World :=
  { wd := { watchdogDataMap := [], counter := 2, currentTime := 100, timer := false },
    subs := [(1, clearSub (regdSub 1)), (2, clearSub (regdSub 2))],
    events := [Event.timeoutEmit [incVisit (exData 1 1), incVisit (exData 2 2)] [1, 2],
               Event.watchdogReset 1, Event.watchdogReset 2] }

/-- Witness for C1 (amended), applied to the concrete sweep of exW1:
entry 1 was in the table at emission and is gone afterwards. -/
theorem sweep_single_batch_then_evict_witness :
    (incVisit (exData 1 1)).key ∈ (visitAll exW1.wd.watchdogDataMap).map Prod.fst ∧
    alook (incVisit (exData 1 1)).key exW1s.wd.watchdogDataMap = none :=
  (@sweep_single_batch_then_evict exW1 100 exW1s
    (by decide) (by decide)).2 (incVisit (exData 1 1)) (by decide)

/-- C4: the sweep timer is active iff the table is non-empty — it is
off in a freshly constructed watchdog, on after every successful
registration, and after an unregister or a sweep pass (which evicts via
the same removal path) it is on exactly when subscribers remain. -/
theorem timer_active_iff_subscribers :
    (∀ (subs : List (Nat × Subscriber)) (t0 : Int),
        ((initWorld subs t0).wd.timer = true ↔ 0 < subscriberCount (initWorld subs t0))) ∧
    (∀ (w : World) (sid : Nat) (t : JSNumber) (tick : Int) (w' : World) (k : Nat),
        addSubscriber w sid t tick = Except.ok (w', k) →
        (w'.wd.timer = true ↔ 0 < subscriberCount w')) ∧
    (∀ (w : World) (sid : Nat) (w' : World), WF w →
        removeSubscriber w sid = Except.ok w' →
        (w'.wd.timer = true ↔ 0 < subscriberCount w')) ∧
    (∀ (w : World) (tick : Int) (w' : World), WF w →
        visitSubscriber w tick = Except.ok w' →
        (w'.wd.timer = true ↔ 0 < subscriberCount w')) := by
  refine ⟨?_, ?_, ?_, ?_⟩
  · intro subs t0
    simp [initWorld, initWDState, subscriberCount]
  · intro w sid t tick w' k h
    obtain ⟨s, _, _, _, _, hmap, _, _, htmr, _, _⟩ := addSubscriber_ok_inv h
    rw [htmr]
    have hpos := aset_length_pos k (mkData k sid t tick) w.wd.watchdogDataMap
    simp [subscriberCount, hmap, hpos]
  · intro w sid w' hWF h
    rcases removeSubscriber_ok_inv h with ⟨s, hs, hwd, rfl⟩ |
      ⟨s, key, hs, hwd, hdata, hka, hsome, htmrcond, rfl⟩
    · exact timerInv_iff hWF.2
    · show ((if (aerase key w.wd.watchdogDataMap).length = 0 then false else w.wd.timer) = true
        ↔ 0 < (aerase key w.wd.watchdogDataMap).length)
      by_cases hlen : (aerase key w.wd.watchdogDataMap).length = 0
      · simp [hlen]
      · have htrue : w.wd.timer = true := by
          rcases hx : alook key w.wd.watchdogDataMap with _ | v
          · rw [hx] at hsome
            simp at hsome
          · rw [hWF.2, isEmpty_false_of_alook hx]
            rfl
        have h0 : 0 < (aerase key w.wd.watchdogDataMap).length := Nat.pos_of_ne_zero hlen
        simp [hlen, htrue, h0]
  · intro w tick w' hWF h
    obtain ⟨w2, hrun2, _, _, _, _, _, htmr⟩ := visitSubscriber_spec tick hWF
    rw [h] at hrun2
    injection hrun2 with heq
    subst heq
    exact timerInv_iff htmr

/-- Witness for C4: after unregistering one of exW1's two subscribers
the timer is still on and one subscriber remains. -/
theorem timer_active_iff_subscribers_witness :
    exW1r.wd.timer = true ↔ 0 < subscriberCount exW1r :=
  timer_active_iff_subscribers.2.2.1 exW1 1 exW1r (by decide) (by decide)

/-- C9: on a sweep pass, every entry present at the start has its
`visitCount` incremented by exactly one — an entry that survives shows
the incremented record in the table, and an evicted entry appears in
the emitted batch with the incremented count. -/
theorem sweep_increments_visitCount {w : World} {tick : Int} {w' : World}
    (hWF : WF w) (hrun : visitSubscriber w tick = Except.ok w')
    (k : Nat) (d : WatchdogData) (hk : alook k w.wd.watchdogDataMap = some d) :
    alook k w'.wd.watchdogDataMap = some (incVisit d) ∨
    incVisit d ∈ expiredEntries w.wd.watchdogDataMap tick := by
  obtain ⟨w2, hrun2, hmap, _, _, _, _, _⟩ := visitSubscriber_spec tick hWF
  rw [hrun] at hrun2
  injection hrun2 with heq
  subst heq
  by_cases hmem : k ∈ (expiredEntries w.wd.watchdogDataMap tick).map WatchdogData.key
  · right
    obtain ⟨d', hd', hkey⟩ := List.mem_map.mp hmem
    obtain ⟨h1, _⟩ := expired_alook hWF.1 hd'
    rw [hkey] at h1
    rw [alook_visitAll, hk] at h1
    simp only [Option.map_some'] at h1
    injection h1 with h2
    rw [← h2] at hd'
    exact hd'
  · left
    rw [hmap, alook_eraseKeys, if_neg hmem, alook_visitAll, hk]
    rfl

/-- Witness for C9: exW1's entry 1 is evicted by the sweep at tick 100
and appears in the batch with `visitCount` 1. -/
theorem sweep_increments_visitCount_witness :
    alook 1 exW1s.wd.watchdogDataMap = some (incVisit (exData 1 1)) ∨
    incVisit (exData 1 1) ∈ expiredEntries exW1.wd.watchdogDataMap 100 :=
  @sweep_increments_visitCount exW1 100 exW1s
    (by decide) (by decide) 1 (exData 1 1) (by decide)

end Watchdog
